import Mathlib

/-!
Verification of the Handle Bridge of `android/app/src/main/cpp/jni/PortalScene_JNI.h`.

The header defines two inline helpers in namespace `PortalScene`:

  inline VRO_REF jptr(std::shared_ptr<VROPortal> shared_portal) {
      PersistentRef<VROPortal> *native_portal = new PersistentRef<VROPortal>(shared_portal);
      return reinterpret_cast<intptr_t>(native_portal);
  }

  inline std::shared_ptr<VROPortal> native(VRO_REF ptr) {
      PersistentRef<VROPortal> *persistentPortal = reinterpret_cast<PersistentRef<VROPortal> *>(ptr);
      return persistentPortal->get();
  }

The embedding makes the ambient C++ state explicit: a `BridgeState` carries the
live `PersistentRef` holders (address paired with the stored shared pointer), the
allocator's next fresh address, and each scene object's shared reference count.
`std::shared_ptr` copy construction is the only refcount-affecting primitive the
fragment uses.  `PersistentRef.h` is not among the provided sources, so its
constructor and `get` are modelled from the specification's description of the
Ownership Holder.
-/

namespace PortalScene

/-- Identity of a native scene object (a `VROPortal`); the object itself is opaque
to this layer. -/
abbrev ObjId := Nat

/-- A `std::shared_ptr<VROPortal>`: either empty (null) or a shared-ownership
reference to a scene object. -/
abbrev SharedPtr := Option ObjId

/-- Ambient native state visible to the bridge: the live `PersistentRef` holders
(address paired with the shared pointer they store), the heap allocator's next
fresh address, and the shared reference count of each scene object. -/
structure BridgeState where
  heap : List (Nat × SharedPtr)
  nextAddr : Nat
  refCount : ObjId → Nat

/-- Copy construction of a `std::shared_ptr` (C++ standard library semantics):
the copy refers to the same object and the pointee's shared reference count is
incremented; copying an empty pointer changes nothing. -/
def copyShared (s : BridgeState) (p : SharedPtr) : BridgeState × SharedPtr :=
  match p with
  | none => (s, none)
  | some i =>
      ({ s with refCount := fun j => if j = i then s.refCount j + 1 else s.refCount j }, some i)

/-- Address lookup among the live holders (the first entry wins, matching a heap
in which live addresses are distinct). -/
def hlookup (a : Nat) : List (Nat × SharedPtr) → Option SharedPtr
  | [] => none
  | (b, p) :: rest => if a = b then some p else hlookup a rest

/-- Modelled from the spec: the `PersistentRef<VROPortal>` constructor
(`PersistentRef.h` is not among the provided sources).  The Ownership Holder
"takes (copies) the shared-ownership reference, incrementing the shared
reference count"; the holder stores that copy. -/
def PersistentRef.store (s : BridgeState) (p : SharedPtr) : BridgeState × SharedPtr :=
  copyShared s p

/-- Modelled from the spec: `PersistentRef<VROPortal>::get` (`PersistentRef.h` is
not among the provided sources).  The holder "holds one shared-ownership
reference to a Scene Object" and `get` "copies out its held shared-ownership
reference (incrementing the reference count again for the returned copy)",
leaving the holder itself unchanged. -/
def PersistentRef.get (s : BridgeState) (stored : SharedPtr) : BridgeState × SharedPtr :=
  copyShared s stored

/-- `PortalScene::jptr`: `new PersistentRef<VROPortal>(shared_portal)` allocates a
fresh holder at the allocator's next address, storing a copy of the shared
pointer, and the holder's address is reinterpreted as the integer handle
(`VRO_REF`).  The net reference-count effect of the call is the one copy held by
the new holder. -/
def jptr (s : BridgeState) (shared_portal : SharedPtr) : BridgeState × Nat :=
  let t := PersistentRef.store s shared_portal
  ({ heap := (s.nextAddr, t.2) :: s.heap, nextAddr := s.nextAddr + 1,
     refCount := t.1.refCount }, s.nextAddr)

/-- `PortalScene::native`: reinterprets the integer as a `PersistentRef` address
and returns `persistentPortal->get()`.  Dereferencing an integer that is not the
address of a live holder is undefined behavior in the source; the embedding has
no defined result there and returns `none`. -/
def native (s : BridgeState) (ptr : Nat) : Option (BridgeState × SharedPtr) :=
  match hlookup ptr s.heap with
  | none => none
  | some p => some (PersistentRef.get s p)

/-- A handle is valid when it is the address of a live Ownership Holder. -/
def validHandle (s : BridgeState) (h : Nat) : Bool :=
  (hlookup h s.heap).isSome

/-- Destruction of one shared-ownership reference (dropping a returned copy):
the pointee's shared reference count is decremented; dropping an empty pointer
changes nothing.  This is the external collaborator of the fragment. -/
def dropShared (s : BridgeState) (p : SharedPtr) : BridgeState :=
  match p with
  | none => s
  | some i =>
      { s with refCount := fun j => if j = i then s.refCount j - 1 else s.refCount j }

/-- An operation of the Handle Bridge: a `jptr` (wrap) call or a `native`
(unwrap) call. -/
inductive BridgeOp where
  | wrap (p : SharedPtr)
  | unwrap (h : Nat)

/-- The state after one bridge operation (an unwrap of an invalid handle has no
defined effect; the embedding leaves the state unchanged there). -/
def stepOp (s : BridgeState) : BridgeOp → BridgeState
  | .wrap p => (jptr s p).1
  | .unwrap h =>
      match native s h with
      | none => s
      | some t => t.1

/-- The state after a sequence of bridge operations. -/
def runOps (s : BridgeState) : List BridgeOp → BridgeState
  | [] => s
  | op :: rest => runOps (stepOp s op) rest

/-- The state after one `native` call (discarding the returned reference but not
dropping it). -/
def unwrapState (s : BridgeState) (h : Nat) : BridgeState :=
  stepOp s (.unwrap h)

/-- The state after `n` repeated `native` calls on the same handle. -/
def iterUnwrap (s : BridgeState) (h : Nat) : Nat → BridgeState
  | 0 => s
  | n + 1 => iterUnwrap (unwrapState s h) h n

/-- A process-initial state: no holders yet, allocator at the first nonzero
address (`new` never yields a null address), all reference counts zero. -/
def initState : BridgeState :=
  { heap := [], nextAddr := 1, refCount := fun _ => 0 }

/-- The copy of a shared pointer refers to exactly the object the original
refers to. -/
theorem copyShared_snd (s : BridgeState) (p : SharedPtr) : (copyShared s p).2 = p := by
  cases p <;> rfl

/-- Copying a shared pointer does not touch the holder heap or the allocator. -/
theorem copyShared_heap (s : BridgeState) (p : SharedPtr) :
    (copyShared s p).1.heap = s.heap ∧ (copyShared s p).1.nextAddr = s.nextAddr := by
  cases p <;> exact ⟨rfl, rfl⟩

/-- Eta form of a shared-pointer copy: it is the updated state paired with the
original pointer value. -/
theorem copyShared_eta (s : BridgeState) (p : SharedPtr) :
    copyShared s p = ((copyShared s p).1, p) := by
  cases p <;> rfl

/-- Claim C1: for every valid (non-empty) scene-object reference, unwrapping the
handle produced by wrapping it yields a reference to the same underlying scene
object: `native (jptr S)` returns a shared pointer equal to `S`. -/
theorem jptr_native_roundtrip_same_object (s : BridgeState) (i : ObjId) :
    (native (jptr s (some i)).1 (jptr s (some i)).2).map Prod.snd = some (some i) := by
  simp [jptr, native, PersistentRef.store, PersistentRef.get, copyShared, hlookup]

/-- Claim C2: two consecutive `jptr` calls — on two distinct scene objects or
twice on the same one — return distinct handles, and after both calls each
handle is still the address of a live holder storing its own shared reference
(each handle independently keeps its object alive). -/
theorem jptr_handles_distinct_and_live (s : BridgeState) (p q : SharedPtr) :
    (jptr s p).2 ≠ (jptr (jptr s p).1 q).2 ∧
    hlookup (jptr s p).2 (jptr (jptr s p).1 q).1.heap = some p ∧
    hlookup (jptr (jptr s p).1 q).2 (jptr (jptr s p).1 q).1.heap = some q := by
  refine ⟨by simp [jptr], ?_, ?_⟩ <;>
    simp [jptr, PersistentRef.store, copyShared_snd, hlookup]

/-- Claim C3: one `jptr` call on a non-empty reference performs exactly one heap
allocation (one new holder consed at the fresh address), increments the scene
object's shared reference count by exactly one, leaves every other object's
count unchanged, advances the allocator by one slot, and does nothing else. -/
theorem jptr_effect_exact (s : BridgeState) (i : ObjId) :
    (jptr s (some i)).1.heap = (s.nextAddr, some i) :: s.heap ∧
    (jptr s (some i)).1.refCount i = s.refCount i + 1 ∧
    (∀ j, j ≠ i → (jptr s (some i)).1.refCount j = s.refCount j) ∧
    (jptr s (some i)).1.nextAddr = s.nextAddr + 1 ∧
    (jptr s (some i)).2 = s.nextAddr := by
  refine ⟨?_, ?_, ?_, rfl, rfl⟩ <;>
    simp [jptr, PersistentRef.store, copyShared]

/-- Witness for claim C3 at a concrete input: wrapping object 0 in the initial
state raises the count of object 0 by one and leaves the count of object 5
unchanged. -/
theorem jptr_effect_exact_witness :
    (jptr initState (some 0)).1.refCount 0 = initState.refCount 0 + 1 ∧
    (jptr initState (some 0)).1.refCount 5 = initState.refCount 5 :=
  ⟨(jptr_effect_exact initState 0).2.1,
   (jptr_effect_exact initState 0).2.2.1 5 (by decide)⟩

/-- Claim C4: on a valid handle (the address of a live holder), `native` always
succeeds — the bridge has no reachable error path and performs no validation;
the precondition is caller discipline only.  (`jptr` is total by construction.) -/
theorem native_no_error_on_valid (s : BridgeState) (h : Nat)
    (hv : validHandle s h = true) : (native s h).isSome = true := by
  unfold validHandle at hv
  unfold native
  cases hl : hlookup h s.heap with
  | none => rw [hl] at hv; simp at hv
  | some p => simp

/-- Witness for claim C4 at a concrete state: the handle produced by wrapping
object 0 in the initial state is valid there and `native` succeeds on it. -/
theorem native_no_error_on_valid_witness :
    (native (jptr initState (some 0)).1 (jptr initState (some 0)).2).isSome = true :=
  native_no_error_on_valid (jptr initState (some 0)).1 (jptr initState (some 0)).2
    (by decide)

/-- Claim C5: on a valid handle storing pointer `p`, `native` returns a fresh
copy of `p` (one more shared reference, so the pointee's count goes up by one),
leaves the holder heap and allocator untouched, and dropping the returned copy
restores every reference count and leaves the original handle valid. -/
theorem native_fresh_ref_frame (s : BridgeState) (h : Nat) (p : SharedPtr)
    (hv : hlookup h s.heap = some p) :
    ∃ s2, native s h = some (s2, p) ∧ s2.heap = s.heap ∧ s2.nextAddr = s.nextAddr ∧
      (∀ i, p = some i → s2.refCount i = s.refCount i + 1) ∧
      (∀ j, (dropShared s2 p).refCount j = s.refCount j) ∧
      validHandle (dropShared s2 p) h = validHandle s h := by
  refine ⟨(copyShared s p).1, ?_, ?_, ?_, ?_, ?_, ?_⟩
  · unfold native PersistentRef.get
    rw [hv]
    exact congrArg some (copyShared_eta s p)
  · exact (copyShared_heap s p).1
  · exact (copyShared_heap s p).2
  · intro i hi
    subst hi
    simp [copyShared]
  · intro j
    cases p with
    | none => rfl
    | some i =>
        by_cases hji : j = i <;> simp [copyShared, dropShared, hji]
  · cases p with
    | none => rfl
    | some i => rfl

/-- Witness for claim C5 at a concrete state: unwrapping the handle produced by
wrapping object 0 in the initial state returns a reference to object 0. -/
theorem native_fresh_ref_frame_witness :
    ∃ s2, native (jptr initState (some 0)).1 (jptr initState (some 0)).2 =
      some (s2, some 0) :=
  match native_fresh_ref_frame (jptr initState (some 0)).1
      (jptr initState (some 0)).2 (some 0) (by decide) with
  | ⟨s2, h1, _⟩ => ⟨s2, h1⟩

/-- Unwrapping a valid handle evaluates to a copy of the stored pointer. -/
theorem native_of_lookup (s : BridgeState) (h : Nat) (p : SharedPtr)
    (hv : hlookup h s.heap = some p) : native s h = some (copyShared s p) := by
  simp only [native, PersistentRef.get]
  rw [hv]

/-- An unwrap step on a valid handle leaves exactly the state of the copy. -/
theorem stepOp_unwrap_eq (s : BridgeState) (h : Nat) (p : SharedPtr)
    (hv : hlookup h s.heap = some p) : stepOp s (.unwrap h) = (copyShared s p).1 := by
  simp only [stepOp, native_of_lookup s h p hv]

/-- An unwrap step on an address that is no live holder has no defined effect in
the embedding. -/
theorem stepOp_unwrap_invalid (s : BridgeState) (h : Nat)
    (hv : hlookup h s.heap = none) : stepOp s (.unwrap h) = s := by
  simp only [stepOp, native, PersistentRef.get]
  rw [hv]

/-- One bridge operation never decreases any reference count. -/
theorem stepOp_refCount_le (s : BridgeState) (op : BridgeOp) (i : ObjId) :
    s.refCount i ≤ (stepOp s op).refCount i := by
  cases op with
  | wrap p =>
      cases p with
      | none => simp [stepOp, jptr, PersistentRef.store, copyShared]
      | some j =>
          by_cases hij : i = j <;>
            simp [stepOp, jptr, PersistentRef.store, copyShared, hij]
  | unwrap h =>
      cases hl : hlookup h s.heap with
      | none => rw [stepOp_unwrap_invalid s h hl]
      | some p =>
          rw [stepOp_unwrap_eq s h p hl]
          cases p with
          | none => simp [copyShared]
          | some j =>
              by_cases hij : i = j <;> simp [copyShared, hij]

/-- One bridge operation never destroys a live holder: a valid handle stays
valid. -/
theorem stepOp_valid_mono (s : BridgeState) (op : BridgeOp) (h : Nat)
    (hv : validHandle s h = true) : validHandle (stepOp s op) h = true := by
  cases op with
  | wrap p =>
      unfold validHandle at hv ⊢
      have hh : (stepOp s (.wrap p)).heap = (s.nextAddr, (copyShared s p).2) :: s.heap := by
        simp [stepOp, jptr, PersistentRef.store]
      rw [hh]
      unfold hlookup
      by_cases he : h = s.nextAddr <;> simp [he, hv]
  | unwrap h2 =>
      unfold validHandle at hv ⊢
      have hh : (stepOp s (.unwrap h2)).heap = s.heap := by
        cases hl : hlookup h2 s.heap with
        | none => rw [stepOp_unwrap_invalid s h2 hl]
        | some p => rw [stepOp_unwrap_eq s h2 p hl]; exact (copyShared_heap s p).1
      rw [hh]
      exact hv

/-- Claim C6: across any sequence of bridge operations, a scene object's shared
reference count only ever grows (the bridge by itself never releases a
reference), and no live holder is ever destroyed (a valid handle stays valid). -/
theorem bridge_never_releases (s : BridgeState) (ops : List BridgeOp) (i : ObjId)
    (h : Nat) :
    s.refCount i ≤ (runOps s ops).refCount i ∧
    (validHandle s h = true → validHandle (runOps s ops) h = true) := by
  induction ops generalizing s with
  | nil => exact ⟨Nat.le_refl _, fun hv => hv⟩
  | cons op rest ih =>
      refine ⟨?_, fun hv => ?_⟩
      · exact Nat.le_trans (stepOp_refCount_le s op i) (ih (stepOp s op)).1
      · exact (ih (stepOp s op)).2 (stepOp_valid_mono s op h hv)

/-- Witness for claim C6 at a concrete run: after wrapping object 0, then
unwrapping its handle and wrapping an empty pointer, the original handle is
still valid and the count of object 0 has not decreased. -/
theorem bridge_never_releases_witness :
    validHandle
      (runOps (jptr initState (some 0)).1 [BridgeOp.unwrap 1, BridgeOp.wrap none]) 1
      = true ∧
    (jptr initState (some 0)).1.refCount 0 ≤
      (runOps (jptr initState (some 0)).1
        [BridgeOp.unwrap 1, BridgeOp.wrap none]).refCount 0 :=
  ⟨(bridge_never_releases (jptr initState (some 0)).1
      [BridgeOp.unwrap 1, BridgeOp.wrap none] 0 1).2 (by decide),
   (bridge_never_releases (jptr initState (some 0)).1
      [BridgeOp.unwrap 1, BridgeOp.wrap none] 0 1).1⟩

/-- Claim C7: both operations are pure in the embedding — their observable
results are determined by the holder heap and the allocator alone (the hidden
reference counts never influence them).  Two states agreeing on heap and
allocator give the same unwrapped pointer, the same fresh handle, and the same
resulting holder heap; in particular repeating `native` on the same handle
returns the same pointer, since `native` leaves the heap unchanged. -/
theorem bridge_ops_pure (s t : BridgeState) (h : Nat) (p : SharedPtr)
    (hh : s.heap = t.heap) (ha : s.nextAddr = t.nextAddr) :
    (native s h).map Prod.snd = (native t h).map Prod.snd ∧
    (jptr s p).2 = (jptr t p).2 ∧
    (jptr s p).1.heap = (jptr t p).1.heap ∧
    (native s h).map Prod.snd = (native (unwrapState s h) h).map Prod.snd := by
  have hnat : ∀ u v : BridgeState, u.heap = v.heap →
      (native u h).map Prod.snd = (native v h).map Prod.snd := by
    intro u v huv
    unfold native PersistentRef.get
    rw [huv]
    cases hlookup h v.heap with
    | none => rfl
    | some q => simp [copyShared_snd]
  have hus : (unwrapState s h).heap = s.heap := by
    cases hl : hlookup h s.heap with
    | none => rw [show unwrapState s h = stepOp s (.unwrap h) from rfl,
        stepOp_unwrap_invalid s h hl]
    | some q => rw [show unwrapState s h = stepOp s (.unwrap h) from rfl,
        stepOp_unwrap_eq s h q hl]; exact (copyShared_heap s q).1
  refine ⟨hnat s t hh, by simp [jptr, ha], ?_, (hnat s (unwrapState s h) hus.symm)⟩
  simp [jptr, PersistentRef.store, copyShared_snd, hh, ha]

/-- Witness for claim C7 at two concrete states that share heap and allocator
but differ in reference counts: observable results coincide. -/
theorem bridge_ops_pure_witness :
    (native (jptr initState (some 0)).1 1).map Prod.snd =
      (native (unwrapState (jptr initState (some 0)).1 1) 1).map Prod.snd :=
  (bridge_ops_pure (jptr initState (some 0)).1 (jptr initState (some 0)).1 1 none
    rfl rfl).2.2.2

/-- Claim C8: wrapping an empty (null) shared pointer is accepted without any
check: it returns a handle that is a live holder storing the empty pointer, no
reference count changes, and unwrapping that handle round-trips to the empty
pointer. -/
theorem jptr_native_null_roundtrip (s : BridgeState) :
    validHandle (jptr s none).1 (jptr s none).2 = true ∧
    (jptr s none).1.refCount = s.refCount ∧
    native (jptr s none).1 (jptr s none).2 = some ((jptr s none).1, none) := by
  refine ⟨?_, rfl, ?_⟩ <;>
    simp [jptr, native, validHandle, PersistentRef.store, PersistentRef.get,
      copyShared, hlookup]

/-- Unwrapping a valid handle leaves the heap and allocator unchanged, keeps the
handle mapped to the same stored pointer, and bumps the pointee's count by one. -/
theorem unwrapState_of_valid (s : BridgeState) (h : Nat) (p : SharedPtr)
    (hv : hlookup h s.heap = some p) :
    (unwrapState s h).heap = s.heap ∧
    (∀ i, p = some i → (unwrapState s h).refCount i = s.refCount i + 1) := by
  rw [show unwrapState s h = stepOp s (.unwrap h) from rfl, stepOp_unwrap_eq s h p hv]
  refine ⟨(copyShared_heap s p).1, ?_⟩
  intro i hi
  subst hi
  simp [copyShared]

/-- Claim C9: `native` can be repeated any number of times on a valid handle
with identical per-call observable behavior: after `n` repetitions the holder
heap is unchanged, the next call still returns the same stored pointer, and the
pointee's reference count has grown by exactly `n`. -/
theorem native_repeatable (s : BridgeState) (h : Nat) (p : SharedPtr)
    (hv : hlookup h s.heap = some p) (n : Nat) :
    (iterUnwrap s h n).heap = s.heap ∧
    (native (iterUnwrap s h n) h).map Prod.snd = some p ∧
    (∀ i, p = some i → (iterUnwrap s h n).refCount i = s.refCount i + n) := by
  induction n generalizing s with
  | zero =>
      refine ⟨rfl, ?_, fun i hi => rfl⟩
      rw [show iterUnwrap s h 0 = s from rfl, native_of_lookup s h p hv]
      simp [copyShared_snd]
  | succ n ih =>
      have hstep := unwrapState_of_valid s h p hv
      have hv2 : hlookup h (unwrapState s h).heap = some p := by rw [hstep.1]; exact hv
      have hrec := ih (unwrapState s h) hv2
      refine ⟨by rw [show iterUnwrap s h (n + 1) = iterUnwrap (unwrapState s h) h n from rfl,
          hrec.1, hstep.1], ?_, ?_⟩
      · rw [show iterUnwrap s h (n + 1) = iterUnwrap (unwrapState s h) h n from rfl]
        exact hrec.2.1
      · intro i hi
        rw [show iterUnwrap s h (n + 1) = iterUnwrap (unwrapState s h) h n from rfl,
          hrec.2.2 i hi, hstep.2 i hi]
        omega

/-- Witness for claim C9 at a concrete state: three repeated unwraps of the
handle for object 0 still return object 0 and have raised its count by three. -/
theorem native_repeatable_witness :
    (native (iterUnwrap (jptr initState (some 0)).1 1 3) 1).map Prod.snd =
      some (some 0) ∧
    (iterUnwrap (jptr initState (some 0)).1 1 3).refCount 0 =
      (jptr initState (some 0)).1.refCount 0 + 3 :=
  ⟨(native_repeatable (jptr initState (some 0)).1 1 (some 0) (by decide) 3).2.1,
   (native_repeatable (jptr initState (some 0)).1 1 (some 0) (by decide) 3).2.2 0 rfl⟩

/-- Claim C10: on any state whose allocator is past address zero (true from
process start, since `new` never yields a null address), the handle returned by
`jptr` is nonzero — 0 is a sentinel `jptr` never produces — and the allocator
stays past zero. -/
theorem jptr_handle_nonzero (s : BridgeState) (p : SharedPtr)
    (hpos : 0 < s.nextAddr) :
    (jptr s p).2 ≠ 0 ∧ 0 < (jptr s p).1.nextAddr := by
  refine ⟨?_, Nat.succ_pos s.nextAddr⟩
  have h2 : (jptr s p).2 = s.nextAddr := rfl
  rw [h2]
  omega

/-- Witness for claim C10 at a concrete input: wrapping an empty pointer in the
initial state yields a nonzero handle. -/
theorem jptr_handle_nonzero_witness :
    (jptr initState none).2 ≠ 0 :=
  (jptr_handle_nonzero initState none (by decide)).1

end PortalScene
